import Mathlib

/-!
Shallow embedding of the AI-assisted blogging backend (AI-Blog-Editor):
the generation facade (Gemini/GenAI variant embedded alongside
`middleware/rateLimiter.js`, and the OpenAI variant in
`services/aiService.js`), the AI rate limiter configured in
`middleware/rateLimiter.js`, and the usage ledger queries of
`routes/ai.js`.

Modelling conventions:
* JS strings are `List Char`; `String.prototype.trim` is modelled over the
  ASCII whitespace characters, `split` and concatenation literally.
* The external provider client (`ai.models.generateContent`, the OpenAI
  chat-completions client) and the database driver are oracles passed as
  function arguments; each facade operation additionally returns the list
  of provider invocations it performed, so call counts are observable.
* JS numbers standing for token counts are `Nat` (the APIs report
  non-negative token counts); temperatures are `Rat`; absent JS fields are
  `Option`.
* Wall-clock ISO timestamps attached to responses (`new Date()`) are not
  modelled; no claim concerns them.
-/

namespace AIBlog

/-- JS strings, modelled as lists of characters. -/
abbrev Str := List Char

/-- The whitespace characters removed by `String.prototype.trim`
(restricted to ASCII). -/
def isJsWhitespace (c : Char) : Bool :=
  c = ' ' || c = '\t' || c = '\n' || c = '\r' || c = '\x0b' || c = '\x0c'

/-- `text.trim()`. -/
def trim (s : Str) : Str :=
  ((s.dropWhile isJsWhitespace).reverse.dropWhile isJsWhitespace).reverse

/-- `text.split('\n')`: split on every newline, keeping empty pieces. -/
def splitNl : Str → List Str
  | [] => [[]]
  | c :: rest =>
    if c = '\n' then [] :: splitNl rest
    else
      match splitNl rest with
      | [] => [[c]]
      | p :: ps => (c :: p) :: ps

/-- Does `pat` occur at the start of `s`? (JS `startsWith`). -/
def strStartsWith : Str → Str → Bool
  | _, [] => true
  | [], _ :: _ => false
  | c :: s, p :: ps => c = p && strStartsWith s ps

/-- Does `pat` occur anywhere in `s`? (JS `includes`). -/
def strHas (pat : Str) : Str → Bool
  | [] => pat.isEmpty
  | c :: rest => strStartsWith (c :: rest) pat || strHas pat rest

/-- Decimal rendering of a count interpolated into a template string. -/
def natStr (n : Nat) : Str := (toString n).toList

/-! ## Provider client (Gemini/GenAI variant, `AIService._callModel`) -/

/-- One invocation of `ai.models.generateContent({model, contents,
temperature, maxOutputTokens})`. -/
structure CallParams where
  model : Str
  contents : Str
  temperature : Rat
  maxOutputTokens : Nat
deriving DecidableEq

/-- The raw provider response shape probed by `_callModel`: the optional
text fields tried in order (`res.text`, `res.response.text`,
`res.output[0].content`) and the optional token-usage fields
(`res.metadata.tokenCount`, `res.usage.totalTokens`,
`res.usage.total_tokens`). -/
structure RawResponse where
  text : Option Str
  responseText : Option Str
  outputContent : Option Str
  metadataTokenCount : Option Nat
  usageTotalTokens : Option Nat
  usageTotalTokensSnake : Option Nat
deriving DecidableEq

/-- An error thrown by the provider client: optional `status` and `code`
fields and a message. -/
structure ProviderErr where
  status : Option Nat
  code : Option Nat
  msg : Str
deriving DecidableEq

/-- The status-coded error `_callModel` rethrows. -/
structure NormErr where
  status : Nat
  msg : Str
deriving DecidableEq

/-- `{text, tokensUsed}` returned by `_callModel` on success. -/
structure ModelResult where
  text : Str
  tokensUsed : Nat
deriving DecidableEq

/-- The behaviour of the external generative client, as an oracle. -/
abbrev Provider := CallParams → Except ProviderErr RawResponse

/-- The service configuration read at construction time. -/
structure SvcConfig where
  clientConfigured : Bool
  defaultModel : Str
  fallbackModel : Str
deriving DecidableEq

/-- `res?.text ?? res?.response?.text ?? (Array.isArray(res?.output) ?
res.output[0]?.content : undefined) ?? ''`. -/
def extractText (r : RawResponse) : Str :=
  ((r.text.orElse fun _ => r.responseText).orElse fun _ => r.outputContent).getD []

/-- `Number(res?.metadata?.tokenCount ?? res?.usage?.totalTokens ??
res?.usage?.total_tokens ?? 0) || 0`. -/
def extractTokens (r : RawResponse) : Nat :=
  ((r.metadataTokenCount.orElse fun _ => r.usageTotalTokens).orElse
    fun _ => r.usageTotalTokensSnake).getD 0

/-- Error normalization in `_callModel`: `status = err?.status || err?.code
|| (message includes quota ? 429 : undefined)`, then `e.status = status ||
500`. -/
def normalizeErr (e : ProviderErr) : NormErr :=
  { status := ((e.status.orElse fun _ => e.code).orElse
      fun _ => if strHas ("quota".toList) e.msg then some 429 else none).getD 500
    msg := e.msg }

/-- `AIService._callModel(model, contents, {temperature, maxOutputTokens})`
(the argument tuple is bundled as a `CallParams`): throws 503 when the
client is not configured, otherwise performs exactly one provider
invocation; also returns the list of invocations performed. -/
def callModel (cfg : SvcConfig) (provider : Provider) (p : CallParams) :
    Except NormErr ModelResult × List CallParams :=
  if !cfg.clientConfigured then
    (.error ⟨503, "Generative client not configured (set GENAI_API_KEY or GEMINI_API_KEY)".toList⟩, [])
  else
    match provider p with
    | .ok r => (.ok ⟨extractText r, extractTokens r⟩, [p])
    | .error e => (.error (normalizeErr e), [p])

/-! ## Generation facade (Gemini/GenAI variant) -/

/-- `toneMap[tone] || ''` in `getSystemPrompt`. -/
def toneDirective (tone : Str) : Str :=
  if tone = "professional".toList then "Write in a formal, informative tone.".toList
  else if tone = "casual".toList then "Write in a friendly, conversational tone.".toList
  else if tone = "technical".toList then "Write in a precise, technical tone with clear explanations.".toList
  else if tone = "creative".toList then "Write in an imaginative, expressive tone.".toList
  else []

/-- `lengthMap[length] || ''` in `getSystemPrompt`. -/
def lengthDirective (length : Str) : Str :=
  if length = "short".toList then "Keep it concise (~100 words).".toList
  else if length = "medium".toList then "Balanced detail (~300 words).".toList
  else if length = "long".toList then "Comprehensive (~600-1000 words).".toList
  else []

/-- `AIService.getSystemPrompt(tone, length)`. -/
def getSystemPrompt (tone length : Str) : Str :=
  "You are an expert content writer. ".toList ++ toneDirective tone
    ++ " ".toList ++ lengthDirective length

/-- `AIService.getMaxTokens(length)`: `{short: 300, medium: 600, long:
1200}[length] || 600`. -/
def getMaxTokens (length : Str) : Nat :=
  if length = "short".toList then 300
  else if length = "medium".toList then 600
  else if length = "long".toList then 1200
  else 600

/-- The options object accepted by `generateContent`; absent JS fields are
`none`. -/
structure GenOptions where
  tone : Option Str
  length : Option Str
  creativity : Option Rat
deriving DecidableEq

/-- `${systemPrompt}\n\n${prompt}` with the defaulted tone and length. -/
def buildFinalPrompt (prompt : Str) (opts : GenOptions) : Str :=
  getSystemPrompt (opts.tone.getD ("professional".toList))
      (opts.length.getD ("medium".toList))
    ++ "\n\n".toList ++ prompt

/-- The successful result shape of `generateContent`. -/
structure GenResult where
  content : Str
  tokensUsed : Nat
  model : Str
deriving DecidableEq

/-- The primary-model invocation `generateContent` performs. -/
def genPrimaryCall (cfg : SvcConfig) (prompt : Str) (opts : GenOptions) : CallParams :=
  ⟨cfg.defaultModel, buildFinalPrompt prompt opts, opts.creativity.getD (7 / 10),
    getMaxTokens (opts.length.getD ("medium".toList))⟩

/-- The fallback-model invocation `generateContent` performs after a primary
failure. -/
def genFallbackCall (cfg : SvcConfig) (prompt : Str) (opts : GenOptions) : CallParams :=
  ⟨cfg.fallbackModel, buildFinalPrompt prompt opts, opts.creativity.getD (7 / 10),
    getMaxTokens (opts.length.getD ("medium".toList))⟩

/-- `err2.status || 500` on the error surfaced when the fallback also
fails. -/
def genFailStatus (s : Nat) : Nat := if s = 0 then 500 else s

/-- `AIService.generateContent(prompt, options)` (GenAI variant): primary
model, then one fallback attempt on any failure; both fail ⇒ a single
`Failed to generate content` error. Returns the result together with the
provider invocations performed. -/
def generateContent (cfg : SvcConfig) (provider : Provider) (prompt : Str)
    (opts : GenOptions) : Except NormErr GenResult × List CallParams :=
  match callModel cfg provider (genPrimaryCall cfg prompt opts) with
  | (.ok r, tr1) => (.ok ⟨r.text, r.tokensUsed, cfg.defaultModel⟩, tr1)
  | (.error _, tr1) =>
    match callModel cfg provider (genFallbackCall cfg prompt opts) with
    | (.ok r2, tr2) => (.ok ⟨r2.text, r2.tokensUsed, cfg.fallbackModel⟩, tr1 ++ tr2)
    | (.error e2, tr2) =>
      (.error ⟨genFailStatus e2.status, "Failed to generate content (Gemini/GenAI)".toList⟩,
        tr1 ++ tr2)

/-- The result shape of grammar correction. In the GenAI variant the
`changes` list is always empty. -/
structure GrammarResult where
  correctedText : Str
  changes : List Str
  tokensUsed : Nat
deriving DecidableEq

/-- The fixed grammar-correction instruction, with the text appended. -/
def grammarPromptOf (text : Str) : Str :=
  "You are a professional grammar and style editor. Correct grammar, spelling, punctuation and minor stylistic issues while preserving the original meaning and tone. RETURN ONLY THE CORRECTED TEXT AND NOTHING ELSE (no explanations, no JSON, no metadata).\n\nText:\n".toList
    ++ text

/-- The single provider invocation `correctGrammar` performs: temperature 0,
`maxOutputTokens = Math.min(1200, Math.max(300, Math.ceil(text.length/2)))`. -/
def grammarCall (cfg : SvcConfig) (text : Str) : CallParams :=
  ⟨cfg.defaultModel, grammarPromptOf text, 0, min 1200 (max 300 ((text.length + 1) / 2))⟩

/-- `AIService.correctGrammar(text)` (GenAI variant): short-circuits on
empty/whitespace input; otherwise one primary-model call whose error is
rethrown unchanged (there is no fallback attempt in this method). -/
def correctGrammar (cfg : SvcConfig) (provider : Provider) (text : Str) :
    Except NormErr GrammarResult × List CallParams :=
  if text.isEmpty || (trim text).isEmpty then
    (.ok ⟨[], [], 0⟩, [])
  else
    match callModel cfg provider (grammarCall cfg text) with
    | (.ok r, tr) => (.ok ⟨trim r.text, [], r.tokensUsed⟩, tr)
    | (.error e, tr) => (.error e, tr)

/-- The result shape of content enhancement. -/
structure EnhanceResult where
  enhancedText : Str
  tokensUsed : Nat
deriving DecidableEq

/-- The `switch (type)` prompt table of `enhanceContent`; the default branch
passes the text through unchanged. -/
def enhancePromptOf (etype text : Str) : Str :=
  if etype = "expand".toList then
    "Expand the following text with more detail and examples while preserving meaning:\n\n".toList ++ text
  else if etype = "simplify".toList then
    "Simplify the following text for a general audience while preserving the key points:\n\n".toList ++ text
  else if etype = "improve".toList then
    "Improve clarity, flow, and impact of the following text:\n\n".toList ++ text
  else if etype = "summarize".toList then
    "Summarize the following text concisely:\n\n".toList ++ text
  else text

/-- The primary-model invocation `enhanceContent` performs: temperature 0.6,
`maxOutputTokens` 900. -/
def enhancePrimaryCall (cfg : SvcConfig) (text etype : Str) : CallParams :=
  ⟨cfg.defaultModel, enhancePromptOf etype text, 3 / 5, 900⟩

/-- The fallback-model invocation `enhanceContent` performs after a primary
failure. -/
def enhanceFallbackCall (cfg : SvcConfig) (text etype : Str) : CallParams :=
  ⟨cfg.fallbackModel, enhancePromptOf etype text, 3 / 5, 900⟩

/-- `AIService.enhanceContent(text, type)` (GenAI variant): primary model,
then one fallback attempt on any failure; both fail ⇒ the fallback error is
rethrown. -/
def enhanceContent (cfg : SvcConfig) (provider : Provider) (text etype : Str) :
    Except NormErr EnhanceResult × List CallParams :=
  match callModel cfg provider (enhancePrimaryCall cfg text etype) with
  | (.ok r, tr1) => (.ok ⟨r.text, r.tokensUsed⟩, tr1)
  | (.error _, tr1) =>
    match callModel cfg provider (enhanceFallbackCall cfg text etype) with
    | (.ok r2, tr2) => (.ok ⟨r2.text, r2.tokensUsed⟩, tr1 ++ tr2)
    | (.error e2, tr2) => (.error e2, tr1 ++ tr2)

/-- The result shape of title generation. -/
structure TitlesResult where
  titles : List Str
  tokensUsed : Nat
deriving DecidableEq

/-- `Generate ${count} SEO-friendly titles (one per line) ...` -/
def titlesPromptOf (content : Str) (count : Nat) : Str :=
  "Generate ".toList ++ natStr count
    ++ " SEO-friendly titles (one per line) for the content below. Return plain text, one title per line.\n\n".toList
    ++ content

/-- `resp.text.split('\n').map(l => l.trim()).filter(Boolean).slice(0,
count)`. -/
def parseTitles (text : Str) (count : Nat) : List Str :=
  ((((splitNl text).map trim).filter fun l => !l.isEmpty).take count)

/-- The primary-model invocation `generateTitles` performs: temperature 0.8,
`maxOutputTokens` 300. -/
def titlesPrimaryCall (cfg : SvcConfig) (content : Str) (count : Nat) : CallParams :=
  ⟨cfg.defaultModel, titlesPromptOf content count, 4 / 5, 300⟩

/-- The fallback-model invocation `generateTitles` performs after a primary
failure. -/
def titlesFallbackCall (cfg : SvcConfig) (content : Str) (count : Nat) : CallParams :=
  ⟨cfg.fallbackModel, titlesPromptOf content count, 4 / 5, 300⟩

/-- `AIService.generateTitles(content, count)` (GenAI variant): temperature
0.8, `maxOutputTokens` 300, primary then one fallback attempt; both fail ⇒
the fallback error is rethrown. -/
def generateTitles (cfg : SvcConfig) (provider : Provider) (content : Str)
    (count : Nat) : Except NormErr TitlesResult × List CallParams :=
  match callModel cfg provider (titlesPrimaryCall cfg content count) with
  | (.ok r, tr1) => (.ok ⟨parseTitles r.text count, r.tokensUsed⟩, tr1)
  | (.error _, tr1) =>
    match callModel cfg provider (titlesFallbackCall cfg content count) with
    | (.ok r2, tr2) => (.ok ⟨parseTitles r2.text count, r2.tokensUsed⟩, tr1 ++ tr2)
    | (.error e2, tr2) => (.error e2, tr1 ++ tr2)

/-! ## Generation facade (OpenAI variant, `services/aiService.js`) -/

/-- One invocation of `client.chat.completions.create` with a system and a
user message. -/
structure OACall where
  model : Str
  systemMsg : Str
  userMsg : Str
  temperature : Rat
  maxTokens : Nat
deriving DecidableEq

/-- The chat-completions response shape used by the OpenAI variant:
`choices[0].message.content` and the optional `usage.total_tokens` (a
missing `usage` object makes the property access throw). -/
structure OAResp where
  content : Str
  usage : Option Nat
deriving DecidableEq

/-- The JSON object `correctGrammar` expects the model to return. -/
structure ParsedGrammar where
  correctedText : Str
  changes : Option (List Str)
deriving DecidableEq

/-- The system message of the OpenAI-variant `correctGrammar`. -/
def oaGrammarSystem : Str :=
  "You are a professional grammar and style editor. Correct any grammar, spelling, punctuation, and style issues in the provided text. Return the corrected text and a list of changes made. Format your response as JSON with \"correctedText\" and \"changes\" fields. The changes should include the original text, corrected text, position, and reason for each change.".toList

/-- The user message of the OpenAI-variant `correctGrammar`. -/
def oaGrammarUser (text : Str) : Str :=
  "Please correct the grammar and style in this text:\n\n".toList ++ text

/-- The single chat-completions invocation the OpenAI-variant
`correctGrammar` performs: model gpt-4, temperature 0.3, `max_tokens`
1000. -/
def oaGrammarCall (text : Str) : OACall :=
  ⟨"gpt-4".toList, oaGrammarSystem, oaGrammarUser text, 3 / 10, 1000⟩

/-- `AIService.correctGrammar(text)` (OpenAI variant,
`services/aiService.js`): no empty-input short-circuit — the provider is
invoked for every input; `JSON.parse` of the model output is the `parseJson`
oracle; every thrown error is caught and replaced by a generic failure. -/
def correctGrammarOpenAI (clientConfigured : Bool)
    (provider : OACall → Except Str OAResp)
    (parseJson : Str → Option ParsedGrammar) (text : Str) :
    Except Str GrammarResult × List OACall :=
  if !clientConfigured then
    (.error "OpenAI API key not configured. Please add OPENAI_API_KEY to your .env file.".toList, [])
  else
    match provider (oaGrammarCall text) with
    | .error _ => (.error "Failed to correct grammar".toList, [oaGrammarCall text])
    | .ok resp =>
      match parseJson resp.content with
      | none => (.error "Failed to correct grammar".toList, [oaGrammarCall text])
      | some g =>
        match resp.usage with
        | none => (.error "Failed to correct grammar".toList, [oaGrammarCall text])
        | some n => (.ok ⟨g.correctedText, g.changes.getD [], n⟩, [oaGrammarCall text])

/-! ## Quota/rate governor (`middleware/rateLimiter.js`)

`createAIRateLimiter(maxRequests)` configures the `express-rate-limit`
dependency with a 24-hour `windowMs` and a per-caller key. The dependency
itself is modelled here by its fixed-window counter semantics: the first
request of a window creates a per-key counter expiring `windowMs` later,
every request increments it, and a request whose incremented count exceeds
`max` is answered with the configured 429 handler. Times are in
milliseconds. -/

/-- `keyGenerator`: `req.user ? user:<id> : ip:<address>`. -/
def rlKey (user : Option Nat) (ip : Str) : Str :=
  match user with
  | some id => "user:".toList ++ natStr id
  | none => "ip:".toList ++ ip

/-- The 24-hour window of `createAIRateLimiter`, in milliseconds. -/
def aiWindowMs : Nat := 24 * 60 * 60 * 1000

/-- One caller's counter: expiry instant and hit count in the current
window. -/
structure Bucket where
  resetAt : Nat
  count : Nat
deriving DecidableEq

/-- The state observed for one caller: the limiter bucket and the number of
generation calls that actually ran (a 429-rejected request runs none). -/
structure GovState where
  bucket : Option Bucket
  genCalls : Nat
deriving DecidableEq

/-- One AI request through the rate-limited pipeline at time `t`: the hit
counter is incremented (or restarted when the window has elapsed); when it
exceeds `maxR` the request is answered 429 and no generation call runs,
otherwise the request proceeds to generation (status 200). -/
def aiRequest (maxR w : Nat) (st : GovState) (t : Nat) : Nat × GovState :=
  let b : Bucket :=
    match st.bucket with
    | none => ⟨t + w, 1⟩
    | some b => if b.resetAt ≤ t then ⟨t + w, 1⟩ else ⟨b.resetAt, b.count + 1⟩
  if maxR < b.count then (429, ⟨some b, st.genCalls⟩)
  else (200, ⟨some b, st.genCalls + 1⟩)

/-- Run a sequence of requests, collecting the response statuses. -/
def runReqs (maxR w : Nat) (st : GovState) : List Nat → List Nat × GovState
  | [] => ([], st)
  | t :: ts =>
    let s := aiRequest maxR w st t
    let rest := runReqs maxR w s.2 ts
    (s.1 :: rest.1, rest.2)

/-! ## Usage ledger (`routes/ai.js`) -/

/-- One row of `ai_usage_logs`; `ts` is the epoch timestamp in seconds. -/
structure UsageRecord where
  userId : Nat
  featureType : Str
  tokensUsed : Nat
  ts : Int
deriving DecidableEq

/-- `DATE(timestamp)`: the calendar day of an epoch-seconds timestamp. -/
def dateOfTs (ts : Int) : Int := ts / 86400

/-- The rows matching `user_id = $1 AND timestamp >= NOW() - INTERVAL
'{days} days'`, shared by the per-feature and per-day queries. -/
def windowRows (logs : List UsageRecord) (u : Nat) (now : Int) (days : Nat) :
    List UsageRecord :=
  logs.filter fun r => r.userId == u && decide (now - (days : Int) * 86400 ≤ r.ts)

/-- The rows matching `user_id = $1` with no time bound, as used by the
totals query. -/
def userRows (logs : List UsageRecord) (u : Nat) : List UsageRecord :=
  logs.filter fun r => r.userId == u

/-- One row of the `GROUP BY feature_type` query. -/
structure FeatureRow where
  featureType : Str
  requestCount : Nat
  totalTokens : Nat
  avgTokens : Rat
deriving DecidableEq

/-- One row of the `GROUP BY DATE(timestamp)` query. -/
structure DailyRow where
  date : Int
  requests : Nat
  tokens : Nat
deriving DecidableEq

/-- `SELECT feature_type, COUNT(*), SUM(tokens_used), AVG(tokens_used) ...
GROUP BY feature_type` over the windowed rows (the ORDER BY only permutes
the rows and is not modelled). -/
def byFeatureRows (rows : List UsageRecord) : List FeatureRow :=
  ((rows.map fun r => r.featureType).dedup).map fun f =>
    let frs := rows.filter fun r => r.featureType == f
    ⟨f, frs.length, (frs.map fun r => r.tokensUsed).sum,
      ((frs.map fun r => r.tokensUsed).sum : Rat) / (frs.length : Rat)⟩

/-- `SELECT DATE(timestamp), COUNT(*), SUM(tokens_used) ... GROUP BY
DATE(timestamp)` over the windowed rows. -/
def dailyUsageRows (rows : List UsageRecord) : List DailyRow :=
  ((rows.map fun r => dateOfTs r.ts).dedup).map fun d =>
    let drs := rows.filter fun r => dateOfTs r.ts == d
    ⟨d, drs.length, (drs.map fun r => r.tokensUsed).sum⟩

/-- The response body of `GET /api/ai/usage`. -/
structure UsageSummary where
  totalRequests : Nat
  totalTokens : Nat
  byFeature : List FeatureRow
  dailyUsage : List DailyRow
deriving DecidableEq

/-- The `GET /api/ai/usage` handler after query-string parsing: rejects a
period outside [1, 365] (`INVALID_PERIOD`, modelled as `none`), otherwise
runs the three aggregate queries. The per-feature and per-day queries are
windowed; the totals query is `SELECT COUNT(*), SUM(tokens_used) FROM
ai_usage_logs WHERE user_id = $1` with no window clause. -/
def usageSummary (logs : List UsageRecord) (u : Nat) (now : Int) (days : Nat) :
    Option UsageSummary :=
  if days < 1 || 365 < days then none
  else
    let wrows := windowRows logs u now days
    some ⟨(userRows logs u).length, ((userRows logs u).map fun r => r.tokensUsed).sum,
      byFeatureRows wrows, dailyUsageRows wrows⟩

/-! ## Route layer (`routes/ai.js`, generation + usage logging) -/

/-- The parameters of the `ai_usage_logs` insert issued by `logAIUsage`. -/
structure UsageInsert where
  userId : Nat
  postId : Option Nat
  featureType : Str
  tokensUsed : Nat
deriving DecidableEq

/-- The database driver, as an oracle: an insert either succeeds or throws. -/
abbrev Db := UsageInsert → Except Str Unit

/-- `logAIUsage(userId, postId, featureType, tokensUsed)`: the insert is
wrapped in try/catch — a driver error is logged and swallowed, so the call
always returns normally. -/
def logAIUsage (db : Db) (ins : UsageInsert) : Except Str Unit :=
  match db ins with
  | .ok u => .ok u
  | .error _ => .ok ()

/-- A caller-visible response of the `/generate` route. -/
inductive RouteResponse where
  | ok (content : Str) (tokensUsed : Nat)
  | err (status : Nat) (code : Str)
deriving DecidableEq

/-- The `POST /api/ai/generate` handler after validation, applied to the
facade outcome: a successful generation is logged via `logAIUsage` (whose
outcome would only reach the catch block if the ledger error escaped) and
answered 200; facade errors map to 429/503/500 by status. -/
def handleGenerate (db : Db) (userId : Nat)
    (genResult : Except NormErr GenResult) : RouteResponse :=
  match genResult with
  | .error e =>
    if e.status = 429 then .err 429 ("AI_QUOTA_EXCEEDED".toList)
    else if e.status = 503 then .err 503 ("AI_SERVICE_UNAVAILABLE".toList)
    else .err 500 ("AI_GENERATE_ERROR".toList)
  | .ok r =>
    match logAIUsage db ⟨userId, none, "generate".toList, r.tokensUsed⟩ with
    | .error _ => .err 500 ("AI_GENERATE_ERROR".toList)
    | .ok _ => .ok r.content r.tokensUsed

end AIBlog

deriving instance DecidableEq for Except

namespace AIBlog

/-! ## Concrete fixtures used to instantiate the theorems -/

/-- A configured service with the default model identifiers from the
source. -/
def exCfg : SvcConfig :=
  ⟨true, "gemini-flash-latest".toList, "text-bison-001".toList⟩

/-- A provider response text of 8 newline-separated non-empty lines (one
padded with spaces, plus an extra blank line). -/
def eightLines : Str :=
  " Alpha \nBeta\n\nGamma\nDelta\nEpsilon\nZeta\nEta\nTheta".toList

/-- A provider that always answers with the eight-line text and a reported
token count of 42. -/
def exTitleProvider : Provider := fun _ =>
  .ok ⟨some eightLines, none, none, some 42, none, none⟩

/-- A provider that always fails with a status-500 error. -/
def exFailProvider : Provider := fun _ => .error ⟨some 500, none, "boom".toList⟩

/-- A provider that answers successfully but reports no usage metadata in
any of the three recognized fields. -/
def exNoUsageProvider : Provider := fun _ =>
  .ok ⟨some ("Generated text".toList), none, none, none, none, none⟩

/-- A fixed query instant: epoch second 8640000 (start of day 100). -/
def exNow : Int := 8640000

/-- Usage records of identity 1 dated today, 10 days ago and 40 days ago. -/
def exLogs : List UsageRecord :=
  [⟨1, "generate".toList, 5, 8640000⟩,
   ⟨1, "grammar".toList, 7, 8640000 - 864000⟩,
   ⟨1, "generate".toList, 9, 8640000 - 3456000⟩]

/-- A usage record belonging to a different identity. -/
def exOtherRec : UsageRecord := ⟨2, "titles".toList, 11, 8640000⟩

/-- An OpenAI-variant provider answering with a fixed completion and 7
total tokens. -/
def exOAProvider : OACall → Except Str OAResp := fun _ =>
  .ok ⟨"Fixed".toList, some 7⟩

/-- A `JSON.parse` oracle accepting the model output as the corrected text
with no change list. -/
def exOAParse : Str → Option ParsedGrammar := fun s => some ⟨s, none⟩

/-- A database driver whose insert always throws. -/
def exDbFail : Db := fun _ => .error ("db down".toList)

/-- A completed generation result. -/
def exGenResult : GenResult := ⟨"Hello".toList, 3, "gemini-flash-latest".toList⟩

/-- Options selecting the short length. -/
def exShortOpts : GenOptions := ⟨none, some ("short".toList), none⟩

/-- Options with every field absent. -/
def exNoneOpts : GenOptions := ⟨none, none, none⟩

/-- Options with an unrecognized length value. -/
def exWeirdOpts : GenOptions := ⟨none, some ("banana".toList), none⟩

/-! ## Helper lemmas -/

/-- Every invocation recorded by `callModel` is the requested one. -/
lemma callModel_mem (cfg : SvcConfig) (provider : Provider) (q p : CallParams)
    (hp : p ∈ (callModel cfg provider q).2) : p = q := by
  cases hcfg : cfg.clientConfigured with
  | false =>
    simp only [callModel, hcfg] at hp
    simp at hp
  | true =>
    simp only [callModel, hcfg] at hp
    rcases h1 : provider q with r | e <;> rw [h1] at hp <;> simpa using hp

/-- The invocation trace of `generateContent` is the primary attempt
followed, only on primary failure, by the fallback attempt. -/
lemma generateContent_trace_eq (cfg : SvcConfig) (provider : Provider)
    (prompt : Str) (opts : GenOptions) :
    (generateContent cfg provider prompt opts).2 =
      (callModel cfg provider (genPrimaryCall cfg prompt opts)).2 ++
      (match (callModel cfg provider (genPrimaryCall cfg prompt opts)).1 with
        | .ok _ => []
        | .error _ => (callModel cfg provider (genFallbackCall cfg prompt opts)).2) := by
  simp only [generateContent]
  rcases h1 : callModel cfg provider (genPrimaryCall cfg prompt opts) with ⟨o1, tr1⟩
  rcases o1 with e1 | r1
  · rcases h2 : callModel cfg provider (genFallbackCall cfg prompt opts) with ⟨o2, tr2⟩
    rcases o2 with e2 | r2 <;> simp
  · simp

/-- Every provider invocation `generateContent` performs is the primary or
the fallback call. -/
lemma generateContent_call_shape (cfg : SvcConfig) (provider : Provider)
    (prompt : Str) (opts : GenOptions) (p : CallParams)
    (hp : p ∈ (generateContent cfg provider prompt opts).2) :
    p = genPrimaryCall cfg prompt opts ∨ p = genFallbackCall cfg prompt opts := by
  rw [generateContent_trace_eq, List.mem_append] at hp
  rcases hp with hp | hp
  · exact Or.inl (callModel_mem _ _ _ p hp)
  · rcases h1 : (callModel cfg provider (genPrimaryCall cfg prompt opts)).1 with e1 | r1 <;>
      rw [h1] at hp
    · exact Or.inr (callModel_mem _ _ _ p hp)
    · simp at hp

/-- Evaluation of `generateContent` when the primary model invocation
fails. -/
lemma generateContent_of_primary_error (cfg : SvcConfig) (provider : Provider)
    (prompt : Str) (opts : GenOptions)
    (hc : cfg.clientConfigured = true) (e1 : ProviderErr)
    (hp : provider (genPrimaryCall cfg prompt opts) = .error e1) :
    generateContent cfg provider prompt opts =
      match provider (genFallbackCall cfg prompt opts) with
      | .ok raw => (.ok ⟨extractText raw, extractTokens raw, cfg.fallbackModel⟩,
          [genPrimaryCall cfg prompt opts, genFallbackCall cfg prompt opts])
      | .error e2 => (.error ⟨genFailStatus (normalizeErr e2).status,
          "Failed to generate content (Gemini/GenAI)".toList⟩,
          [genPrimaryCall cfg prompt opts, genFallbackCall cfg prompt opts]) := by
  simp only [generateContent, callModel, hc, Bool.not_true, Bool.false_eq_true,
    if_false, hp]
  rcases h2 : provider (genFallbackCall cfg prompt opts) with e2 | raw <;> simp

/-- Evaluation of `enhanceContent` when the primary model invocation
fails. -/
lemma enhanceContent_of_primary_error (cfg : SvcConfig) (provider : Provider)
    (text etype : Str)
    (hc : cfg.clientConfigured = true) (e1 : ProviderErr)
    (hp : provider (enhancePrimaryCall cfg text etype) = .error e1) :
    enhanceContent cfg provider text etype =
      match provider (enhanceFallbackCall cfg text etype) with
      | .ok raw => (.ok ⟨extractText raw, extractTokens raw⟩,
          [enhancePrimaryCall cfg text etype, enhanceFallbackCall cfg text etype])
      | .error e2 => (.error (normalizeErr e2),
          [enhancePrimaryCall cfg text etype, enhanceFallbackCall cfg text etype]) := by
  simp only [enhanceContent, callModel, hc, Bool.not_true, Bool.false_eq_true,
    if_false, hp]
  rcases h2 : provider (enhanceFallbackCall cfg text etype) with e2 | raw <;> simp

/-- A string made of whitespace characters trims to the empty string. -/
lemma trim_of_all_ws (s : Str) (h : ∀ c ∈ s, isJsWhitespace c = true) :
    trim s = [] := by
  have h1 : s.dropWhile isJsWhitespace = [] := by
    rw [List.dropWhile_eq_nil_iff]
    exact h
  unfold trim
  rw [h1]
  rfl

/-- Evaluation of `correctGrammar` when the single model invocation fails:
the error is passed through and no further invocation happens. -/
lemma correctGrammar_of_primary_error (cfg : SvcConfig) (provider : Provider)
    (text : Str)
    (hc : cfg.clientConfigured = true) (ht : trim text ≠ [])
    (e : ProviderErr)
    (hp : provider (grammarCall cfg text) = .error e) :
    correctGrammar cfg provider text = (.error (normalizeErr e), [grammarCall cfg text]) := by
  have htx : text ≠ [] := by
    intro hnil
    apply ht
    rw [hnil]
    rfl
  have h1 : text.isEmpty = false := by
    cases text with
    | nil => exact absurd rfl htx
    | cons a l => rfl
  have h2 : (trim text).isEmpty = false := by
    cases hv : trim text with
    | nil => exact absurd hv ht
    | cons a l => rfl
  simp only [correctGrammar, callModel, h1, h2, hc, Bool.or_self, Bool.not_true,
    Bool.false_eq_true, if_false, hp]

/-- Running requests whose times all lie before the reset instant admits
each of them while the counter stays at or below the ceiling. -/
lemma runReqs_under_ceiling (maxR w r : Nat) (ts : List Nat) :
    ∀ c g : Nat, (∀ t ∈ ts, t < r) → c + ts.length ≤ maxR →
    runReqs maxR w ⟨some ⟨r, c⟩, g⟩ ts =
      (List.replicate ts.length 200, ⟨some ⟨r, c + ts.length⟩, g + ts.length⟩) := by
  induction ts with
  | nil =>
    intro c g _ _
    simp [runReqs]
  | cons t ts ih =>
    intro c g hin hc
    have hni : ¬ r ≤ t := by
      have := hin t (List.mem_cons_self t ts)
      omega
    have hcnt : ¬ maxR < c + 1 := by
      simp only [List.length_cons] at hc
      omega
    have hstep : aiRequest maxR w ⟨some ⟨r, c⟩, g⟩ t = (200, ⟨some ⟨r, c + 1⟩, g + 1⟩) := by
      simp only [aiRequest]
      rw [if_neg hni, if_neg hcnt]
    have hrest := ih (c + 1) (g + 1) (fun x hx => hin x (List.mem_cons_of_mem t hx))
      (by simp only [List.length_cons] at hc; omega)
    simp only [runReqs, hstep, hrest, List.length_cons, List.replicate_succ]
    have h1 : c + 1 + ts.length = c + (ts.length + 1) := by omega
    have h2 : g + 1 + ts.length = g + (ts.length + 1) := by omega
    rw [h1, h2]

/-- Splitting a request sequence splits the response sequence. -/
lemma runReqs_append (maxR w : Nat) (st : GovState) (l1 l2 : List Nat) :
    runReqs maxR w st (l1 ++ l2) =
      ((runReqs maxR w st l1).1 ++ (runReqs maxR w (runReqs maxR w st l1).2 l2).1,
       (runReqs maxR w (runReqs maxR w st l1).2 l2).2) := by
  induction l1 generalizing st with
  | nil => simp [runReqs]
  | cons t ts ih => simp [runReqs, ih]

/-- Evaluation of `generateContent` when the primary model invocation
succeeds: a single invocation, whose extracted text and token count are
returned. -/
lemma generateContent_of_primary_ok (cfg : SvcConfig) (provider : Provider)
    (prompt : Str) (opts : GenOptions) (hc : cfg.clientConfigured = true)
    (raw : RawResponse) (hp : provider (genPrimaryCall cfg prompt opts) = .ok raw) :
    generateContent cfg provider prompt opts =
      (.ok ⟨extractText raw, extractTokens raw, cfg.defaultModel⟩,
        [genPrimaryCall cfg prompt opts]) := by
  simp only [generateContent, callModel, hc, Bool.not_true, Bool.false_eq_true,
    if_false, hp]

/-- With no client configured, `generateContent` fails with status 503 and
performs no provider invocation. -/
lemma generateContent_not_configured (cfg : SvcConfig) (provider : Provider)
    (prompt : Str) (opts : GenOptions) (hc : cfg.clientConfigured = false) :
    (generateContent cfg provider prompt opts).1 =
      .error ⟨503, "Failed to generate content (Gemini/GenAI)".toList⟩ := by
  simp only [generateContent, callModel, hc, Bool.not_false, if_true]
  rfl

/-! ## Claim theorems -/

/-- C1 counterexample: with usage records of one identity dated today, 10
days ago and 40 days ago, the usage summary for a 30-day window reports
totalRequests 3 and totalTokens 21 — the 40-days-ago record is included,
because the totals query carries no window clause — while the claim
predicts totals (2, 12) over the two in-window records. The daily series
does contain exactly 2 distinct dates. -/
theorem usage_totals_include_out_of_window_cex :
    ((usageSummary exLogs 1 exNow 30).map fun s =>
      (s.totalRequests, s.totalTokens, s.dailyUsage.length)) = some (3, 21, 2) ∧
    ((3 : Nat), (21 : Nat)) ≠ ((2 : Nat), (12 : Nat)) :=
  ⟨by decide, by decide⟩

/-- C1 (amended): the usage summary is scoped to the requesting identity —
a record of any other identity never changes the response — and the
per-feature and per-day series are restricted to the trailing window (the
three-record scenario yields exactly 2 distinct dates and 2 windowed
feature rows), but totalRequests and totalTokens are computed over ALL
records of the identity with no window clause, so the 40-days-ago record
makes them 3 and 21. -/
theorem usage_summary_windowing_amended (logs : List UsageRecord) (u : Nat)
    (now : Int) (days : Nat) (r : UsageRecord) (hr : r.userId ≠ u) :
    usageSummary (r :: logs) u now days = usageSummary logs u now days ∧
    ((usageSummary exLogs 1 exNow 30).map fun s =>
      (s.totalRequests, s.totalTokens, s.dailyUsage.length, s.byFeature.length)) =
      some (3, 21, 2, 2) := by
  constructor
  · have h1 : (r.userId == u) = false := by
      simp only [beq_eq_false_iff_ne, ne_eq]
      exact hr
    simp [usageSummary, windowRows, userRows, List.filter_cons, h1]
  · decide

/-- Witness for the amended C1 theorem at a concrete foreign record. -/
theorem usage_summary_windowing_amended_witness :
    exOtherRec.userId ≠ 1 ∧
    usageSummary (exOtherRec :: exLogs) 1 exNow 30 = usageSummary exLogs 1 exNow 30 :=
  ⟨by decide, (usage_summary_windowing_amended exLogs 1 exNow 30 exOtherRec (by decide)).1⟩

/-- C2 counterexample: with a primary model that fails, `correctGrammar`
performs exactly one provider invocation — against the default model, whose
identifier differs from the fallback model — and surfaces the primary
error; no fallback invocation occurs, contrary to the claimed
generateContent-style retry policy. -/
theorem correctGrammar_no_fallback_cex :
    (correctGrammar exCfg exFailProvider ("Helo world".toList)).2 =
      [grammarCall exCfg ("Helo world".toList)] ∧
    (grammarCall exCfg ("Helo world".toList)).model = exCfg.defaultModel ∧
    exCfg.defaultModel ≠ exCfg.fallbackModel ∧
    (correctGrammar exCfg exFailProvider ("Helo world".toList)).1 =
      .error ⟨500, "boom".toList⟩ := by
  refine ⟨?_, rfl, by decide, by decide⟩
  set_option maxRecDepth 10000 in decide

/-- C2 (amended): `correctGrammar` does not retry on a fallback model: for
every non-empty input whose primary model invocation fails, the normalized
primary error is surfaced directly after exactly one provider invocation,
which targets the default model. -/
theorem correctGrammar_primary_error_surfaced (cfg : SvcConfig) (provider : Provider)
    (text : Str) (hc : cfg.clientConfigured = true) (ht : trim text ≠ [])
    (e : ProviderErr) (hp : provider (grammarCall cfg text) = .error e) :
    correctGrammar cfg provider text = (.error (normalizeErr e), [grammarCall cfg text]) ∧
    (grammarCall cfg text).model = cfg.defaultModel := by
  exact ⟨correctGrammar_of_primary_error cfg provider text hc ht e hp, rfl⟩

/-- Witness for the amended C2 theorem at a concrete failing provider. -/
theorem correctGrammar_primary_error_surfaced_witness :
    exCfg.clientConfigured = true ∧
    trim ("Helo world".toList) ≠ [] ∧
    exFailProvider (grammarCall exCfg ("Helo world".toList)) =
      .error ⟨some 500, none, "boom".toList⟩ ∧
    correctGrammar exCfg exFailProvider ("Helo world".toList) =
      (.error (normalizeErr ⟨some 500, none, "boom".toList⟩),
        [grammarCall exCfg ("Helo world".toList)]) :=
  ⟨rfl, by decide, rfl,
    (correctGrammar_primary_error_surfaced exCfg exFailProvider ("Helo world".toList)
      rfl (by decide) ⟨some 500, none, "boom".toList⟩ rfl).1⟩

/-- C3 (confirmed): when the primary provider invocation of
`generateContent` (and likewise `enhanceContent`) fails with any error, the
facade performs exactly one further invocation, against the fallback model,
with identical prompt, temperature and token ceiling; if the fallback also
fails, exactly one error value is surfaced to the caller. -/
theorem generateContent_fallback_policy (cfg : SvcConfig) (provider : Provider)
    (prompt : Str) (opts : GenOptions) (text etype : Str)
    (hc : cfg.clientConfigured = true)
    (e1 : ProviderErr) (hp : provider (genPrimaryCall cfg prompt opts) = .error e1)
    (e3 : ProviderErr) (hq : provider (enhancePrimaryCall cfg text etype) = .error e3) :
    (generateContent cfg provider prompt opts).2 =
        [genPrimaryCall cfg prompt opts, genFallbackCall cfg prompt opts] ∧
    (genFallbackCall cfg prompt opts).model = cfg.fallbackModel ∧
    (genFallbackCall cfg prompt opts).contents = (genPrimaryCall cfg prompt opts).contents ∧
    (genFallbackCall cfg prompt opts).temperature = (genPrimaryCall cfg prompt opts).temperature ∧
    (genFallbackCall cfg prompt opts).maxOutputTokens =
      (genPrimaryCall cfg prompt opts).maxOutputTokens ∧
    (∀ e2 : ProviderErr, provider (genFallbackCall cfg prompt opts) = .error e2 →
      (generateContent cfg provider prompt opts).1 =
        .error ⟨genFailStatus (normalizeErr e2).status,
          "Failed to generate content (Gemini/GenAI)".toList⟩) ∧
    (enhanceContent cfg provider text etype).2 =
        [enhancePrimaryCall cfg text etype, enhanceFallbackCall cfg text etype] ∧
    (enhanceFallbackCall cfg text etype).model = cfg.fallbackModel ∧
    (enhanceFallbackCall cfg text etype).contents =
      (enhancePrimaryCall cfg text etype).contents ∧
    (enhanceFallbackCall cfg text etype).temperature =
      (enhancePrimaryCall cfg text etype).temperature ∧
    (∀ e4 : ProviderErr, provider (enhanceFallbackCall cfg text etype) = .error e4 →
      (enhanceContent cfg provider text etype).1 = .error (normalizeErr e4)) := by
  have hg := generateContent_of_primary_error cfg provider prompt opts hc e1 hp
  have he := enhanceContent_of_primary_error cfg provider text etype hc e3 hq
  refine ⟨?_, rfl, rfl, rfl, rfl, ?_, ?_, rfl, rfl, rfl, ?_⟩
  · rw [hg]
    rcases h2 : provider (genFallbackCall cfg prompt opts) with e2 | raw <;> rfl
  · intro e2 h2
    rw [hg, h2]
  · rw [he]
    rcases h2 : provider (enhanceFallbackCall cfg text etype) with e2 | raw <;> rfl
  · intro e4 h4
    rw [he, h4]

/-- Witness for the C3 theorem at a provider that fails every call. -/
theorem generateContent_fallback_policy_witness :
    exCfg.clientConfigured = true ∧
    exFailProvider (genPrimaryCall exCfg ("Hello".toList) exNoneOpts) =
      .error ⟨some 500, none, "boom".toList⟩ ∧
    exFailProvider (enhancePrimaryCall exCfg ("Text".toList) ("expand".toList)) =
      .error ⟨some 500, none, "boom".toList⟩ ∧
    (generateContent exCfg exFailProvider ("Hello".toList) exNoneOpts).2 =
      [genPrimaryCall exCfg ("Hello".toList) exNoneOpts,
       genFallbackCall exCfg ("Hello".toList) exNoneOpts] :=
  ⟨rfl, rfl, rfl,
    (generateContent_fallback_policy exCfg exFailProvider ("Hello".toList) exNoneOpts
      ("Text".toList) ("expand".toList) rfl ⟨some 500, none, "boom".toList⟩ rfl
      ⟨some 500, none, "boom".toList⟩ rfl).1⟩

/-- C4 counterexample: the OpenAI-variant `correctGrammar` of
`services/aiService.js` has no empty-input short-circuit: on the empty
string it performs one provider invocation and returns the provider-derived
result with a nonzero token count, not the empty result with zero provider
calls that the claim requires of every `correctGrammar` implementation. -/
theorem correctGrammarOpenAI_empty_calls_provider_cex :
    (correctGrammarOpenAI true exOAProvider exOAParse []).2.length = 1 ∧
    (correctGrammarOpenAI true exOAProvider exOAParse []).1 =
      .ok ⟨"Fixed".toList, [], 7⟩ :=
  ⟨by decide, by decide⟩

/-- C4 (amended): the GenAI-variant `correctGrammar` returns the empty
corrected text, empty change list and token count 0, with zero provider
invocations, on every input that is empty or consists only of whitespace;
the OpenAI variant lacks this short-circuit and invokes the provider. -/
theorem correctGrammar_empty_shortcircuit (cfg : SvcConfig) (provider : Provider)
    (text : Str) (hw : ∀ c ∈ text, isJsWhitespace c = true) :
    correctGrammar cfg provider text = (.ok ⟨[], [], 0⟩, []) := by
  have ht : trim text = [] := trim_of_all_ws text hw
  have h2 : (trim text).isEmpty = true := by rw [ht]; rfl
  simp [correctGrammar, h2]

/-- Witness for the amended C4 theorem on a whitespace-only input. -/
theorem correctGrammar_empty_shortcircuit_witness :
    (∀ c ∈ ((" \t ".toList : Str)), isJsWhitespace c = true) ∧
    correctGrammar exCfg exFailProvider (" \t ".toList) = (.ok ⟨[], [], 0⟩, []) :=
  ⟨by decide, correctGrammar_empty_shortcircuit exCfg exFailProvider (" \t ".toList) (by decide)⟩

/-- C5 (confirmed): a caller whose tier ceiling is N and who issues N+1
requests within one window is answered 200 on the first N and 429 on the
(N+1)th, with the number of generation calls staying at N — the rejected
request consumes none — and a further request issued after the window
elapses is admitted and runs a generation call. -/
theorem rateLimiter_ceiling_breach (N w t0 : Nat) (hN : 1 ≤ N)
    (mid : List Nat) (hlen : mid.length = N - 1)
    (hmid : ∀ t ∈ mid, t < t0 + w) (tl : Nat) (htl : tl < t0 + w)
    (t2 : Nat) (ht2 : t0 + w ≤ t2) :
    (runReqs N w ⟨none, 0⟩ (t0 :: mid ++ [tl])).1 =
        List.replicate N 200 ++ [429] ∧
    (runReqs N w ⟨none, 0⟩ (t0 :: mid ++ [tl])).2.genCalls = N ∧
    (aiRequest N w (runReqs N w ⟨none, 0⟩ (t0 :: mid ++ [tl])).2 t2).1 = 200 ∧
    (aiRequest N w (runReqs N w ⟨none, 0⟩ (t0 :: mid ++ [tl])).2 t2).2.genCalls = N + 1 := by
  have hfirst : aiRequest N w ⟨none, 0⟩ t0 = (200, ⟨some ⟨t0 + w, 1⟩, 1⟩) := by
    simp only [aiRequest]
    rw [if_neg (show ¬ N < 1 by omega)]
  have hone : 1 + mid.length = N := by omega
  have hmrun : runReqs N w ⟨some ⟨t0 + w, 1⟩, 1⟩ mid =
      (List.replicate mid.length 200, ⟨some ⟨t0 + w, N⟩, N⟩) := by
    rw [runReqs_under_ceiling N w (t0 + w) mid 1 1 hmid (by omega), hone]
  have hlastreq : aiRequest N w ⟨some ⟨t0 + w, N⟩, N⟩ tl = (429, ⟨some ⟨t0 + w, N + 1⟩, N⟩) := by
    simp only [aiRequest]
    rw [if_neg (show ¬ t0 + w ≤ tl by omega), if_pos (show N < N + 1 by omega)]
  have hfull : runReqs N w ⟨none, 0⟩ (t0 :: mid ++ [tl]) =
      (200 :: (List.replicate mid.length 200 ++ [429]), ⟨some ⟨t0 + w, N + 1⟩, N⟩) := by
    show runReqs N w ⟨none, 0⟩ (t0 :: (mid ++ [tl])) = _
    simp [runReqs, hfirst, runReqs_append, hmrun, hlastreq]
  have hafter : aiRequest N w ⟨some ⟨t0 + w, N + 1⟩, N⟩ t2 = (200, ⟨some ⟨t2 + w, 1⟩, N + 1⟩) := by
    simp only [aiRequest]
    rw [if_pos (show t0 + w ≤ t2 from ht2), if_neg (show ¬ N < 1 by omega)]
  have hN1 : N = mid.length + 1 := by omega
  refine ⟨?_, ?_, ?_, ?_⟩
  · rw [hfull, hN1, List.replicate_succ, List.cons_append]
  · rw [hfull]
  · rw [hfull, hafter]
  · rw [hfull, hafter]

/-- Witness for the C5 theorem with ceiling 2 and a 10ms window. -/
theorem rateLimiter_ceiling_breach_witness :
    ((1 : Nat) ≤ 2 ∧ ([3] : List Nat).length = 2 - 1 ∧
      (∀ t ∈ ([3] : List Nat), t < 0 + 10) ∧ 5 < 0 + 10 ∧ 0 + 10 ≤ (12 : Nat)) ∧
    ((runReqs 2 10 ⟨none, 0⟩ (0 :: [3] ++ [5])).1 = List.replicate 2 200 ++ [429] ∧
     (runReqs 2 10 ⟨none, 0⟩ (0 :: [3] ++ [5])).2.genCalls = 2 ∧
     (aiRequest 2 10 (runReqs 2 10 ⟨none, 0⟩ (0 :: [3] ++ [5])).2 12).1 = 200 ∧
     (aiRequest 2 10 (runReqs 2 10 ⟨none, 0⟩ (0 :: [3] ++ [5])).2 12).2.genCalls = 2 + 1) :=
  ⟨⟨by decide, by decide, by decide, by decide, by decide⟩,
    rateLimiter_ceiling_breach 2 10 0 (by decide) [3] (by decide) (by decide) 5
      (by decide) 12 (by decide)⟩

/-- C6 (confirmed): for every provider response text and count, the title
list is obtained by splitting on newlines, trimming each line, discarding
empty lines and truncating to at most count entries while preserving the
original order (it is a sublist of the trimmed split); in particular,
`generateTitles` with count 5 on an 8-line response returns exactly the
first 5 trimmed non-empty titles in order. -/
theorem generateTitles_split_trim_truncate :
    (∀ (text : Str) (count : Nat),
      (parseTitles text count).length ≤ count ∧
      (∀ t ∈ parseTitles text count, t ≠ []) ∧
      (parseTitles text count).Sublist ((splitNl text).map trim)) ∧
    (generateTitles exCfg exTitleProvider ("Some long enough content here".toList) 5).1 =
      .ok ⟨["Alpha".toList, "Beta".toList, "Gamma".toList, "Delta".toList,
        "Epsilon".toList], 42⟩ := by
  constructor
  · intro text count
    refine ⟨List.length_take_le _ _, ?_, (List.take_sublist _ _).trans (List.filter_sublist _)⟩
    intro t ht
    have ht2 : t ∈ ((splitNl text).map trim).filter fun l => !l.isEmpty :=
      List.take_subset _ _ ht
    have := (List.mem_filter.mp ht2).2
    intro hnil
    rw [hnil] at this
    exact absurd this (by decide)
  · decide

/-- Witness for the C6 theorem on the concrete eight-line response. -/
theorem generateTitles_split_trim_truncate_witness :
    parseTitles eightLines 5 = ["Alpha".toList, "Beta".toList, "Gamma".toList,
      "Delta".toList, "Epsilon".toList] ∧
    (parseTitles eightLines 5).length ≤ 5 ∧
    (parseTitles eightLines 5).Sublist ((splitNl eightLines).map trim) :=
  ⟨by decide, (generateTitles_split_trim_truncate.1 eightLines 5).1,
    (generateTitles_split_trim_truncate.1 eightLines 5).2.2⟩

/-- C7 (confirmed): the token count extracted from a raw provider response
is a natural number — hence a non-negative integer, never null or undefined
— that is 0 whenever none of the three usage fields is reported, and every
completed `generateContent` result carries exactly the count extracted from
the raw response of the invocation that produced it. -/
theorem tokensUsed_defaults_to_zero :
    (∀ r : RawResponse, r.metadataTokenCount = none → r.usageTotalTokens = none →
      r.usageTotalTokensSnake = none → extractTokens r = 0) ∧
    (∀ (cfg : SvcConfig) (provider : Provider) (prompt : Str) (opts : GenOptions)
      (res : GenResult), (generateContent cfg provider prompt opts).1 = .ok res →
      ∃ p raw, provider p = .ok raw ∧ res.tokensUsed = extractTokens raw) := by
  constructor
  · intro r h1 h2 h3
    simp [extractTokens, h1, h2, h3]
  · intro cfg provider prompt opts res hres
    cases hcfg : cfg.clientConfigured with
    | false =>
      rw [generateContent_not_configured cfg provider prompt opts hcfg] at hres
      exact absurd hres (by simp)
    | true =>
      rcases h1 : provider (genPrimaryCall cfg prompt opts) with e1 | raw1
      · rcases h2 : provider (genFallbackCall cfg prompt opts) with e2 | raw2
        · rw [generateContent_of_primary_error cfg provider prompt opts hcfg e1 h1, h2] at hres
          exact absurd hres (by simp)
        · rw [generateContent_of_primary_error cfg provider prompt opts hcfg e1 h1, h2] at hres
          refine ⟨genFallbackCall cfg prompt opts, raw2, h2, ?_⟩
          cases hres
          rfl
      · rw [generateContent_of_primary_ok cfg provider prompt opts hcfg raw1 h1] at hres
        refine ⟨genPrimaryCall cfg prompt opts, raw1, h1, ?_⟩
        cases hres
        rfl

/-- Witness for the C7 theorem on a provider that reports no usage. -/
theorem tokensUsed_defaults_to_zero_witness :
    (generateContent exCfg exNoUsageProvider ("Hi".toList) exNoneOpts).1 =
      .ok ⟨"Generated text".toList, 0, "gemini-flash-latest".toList⟩ ∧
    (∃ p raw, exNoUsageProvider p = .ok raw ∧
      (⟨"Generated text".toList, 0, "gemini-flash-latest".toList⟩ : GenResult).tokensUsed =
        extractTokens raw) :=
  ⟨by decide,
    tokensUsed_defaults_to_zero.2 exCfg exNoUsageProvider ("Hi".toList) exNoneOpts
      ⟨"Generated text".toList, 0, "gemini-flash-latest".toList⟩ (by decide)⟩

/-- C8 (confirmed): when the usage-ledger insert triggered by a successful
generation fails, the error is swallowed inside `logAIUsage` and the
`/generate` route still answers with the successful generation response —
the ledger failure never fails the generation call. -/
theorem usage_log_failure_swallowed (db : Db) (u : Nat) (r : GenResult) (m : Str)
    (hdb : db ⟨u, none, "generate".toList, r.tokensUsed⟩ = .error m) :
    handleGenerate db u (.ok r) = .ok r.content r.tokensUsed := by
  simp only [handleGenerate, logAIUsage, hdb]

/-- Witness for the C8 theorem with a database whose inserts always fail. -/
theorem usage_log_failure_swallowed_witness :
    exDbFail ⟨7, none, "generate".toList, exGenResult.tokensUsed⟩ =
      .error ("db down".toList) ∧
    handleGenerate exDbFail 7 (.ok exGenResult) =
      .ok exGenResult.content exGenResult.tokensUsed :=
  ⟨rfl, usage_log_failure_swallowed exDbFail 7 exGenResult ("db down".toList) rfl⟩

/-- C9 (confirmed): `getMaxTokens` maps short, medium and long to the fixed
ceilings 300, 600 and 1200, and every provider invocation performed by
`generateContent` for a given length uses exactly `getMaxTokens` of that
length as its `maxOutputTokens` — never a larger ceiling. -/
theorem maxTokens_fixed_per_length :
    getMaxTokens ("short".toList) = 300 ∧ getMaxTokens ("medium".toList) = 600 ∧
    getMaxTokens ("long".toList) = 1200 ∧
    (∀ (cfg : SvcConfig) (provider : Provider) (prompt : Str) (opts : GenOptions)
      (l : Str), opts.length = some l →
      ∀ p ∈ (generateContent cfg provider prompt opts).2,
        p.maxOutputTokens = getMaxTokens l) := by
  refine ⟨by decide, by decide, by decide, ?_⟩
  intro cfg provider prompt opts l hl p hp
  rcases generateContent_call_shape cfg provider prompt opts p hp with h | h <;>
    rw [h] <;> simp [genPrimaryCall, genFallbackCall, hl]

/-- Witness for the C9 theorem at the short length. -/
theorem maxTokens_fixed_per_length_witness :
    exShortOpts.length = some ("short".toList) ∧
    (∀ p ∈ (generateContent exCfg exTitleProvider ("Hello".toList) exShortOpts).2,
      p.maxOutputTokens = getMaxTokens ("short".toList)) :=
  ⟨rfl, maxTokens_fixed_per_length.2.2.2 exCfg exTitleProvider ("Hello".toList)
    exShortOpts ("short".toList) rfl⟩

/-- C10 (confirmed): for every length value outside short, medium and long,
`getMaxTokens` returns 600 — the medium ceiling — and `generateContent`
with such a length (or with no length at all) invokes the provider with
`maxOutputTokens` 600 rather than failing. -/
theorem maxTokens_unrecognized_defaults_medium :
    (∀ l : Str, l ≠ "short".toList → l ≠ "medium".toList → l ≠ "long".toList →
      getMaxTokens l = 600 ∧ getMaxTokens l = getMaxTokens ("medium".toList)) ∧
    (∀ (cfg : SvcConfig) (provider : Provider) (prompt : Str) (opts : GenOptions),
      opts.length = none →
      ∀ p ∈ (generateContent cfg provider prompt opts).2, p.maxOutputTokens = 600) ∧
    (∀ (cfg : SvcConfig) (provider : Provider) (prompt : Str) (opts : GenOptions)
      (l : Str), opts.length = some l →
      l ≠ "short".toList → l ≠ "medium".toList → l ≠ "long".toList →
      ∀ p ∈ (generateContent cfg provider prompt opts).2, p.maxOutputTokens = 600) := by
  have hbase : ∀ l : Str, l ≠ "short".toList → l ≠ "medium".toList →
      l ≠ "long".toList → getMaxTokens l = 600 := by
    intro l h1 h2 h3
    unfold getMaxTokens
    rw [if_neg h1, if_neg h2, if_neg h3]
  have hmed : getMaxTokens ("medium".toList) = 600 := by decide
  refine ⟨fun l h1 h2 h3 => ⟨hbase l h1 h2 h3, by rw [hbase l h1 h2 h3, hmed]⟩, ?_, ?_⟩
  · intro cfg provider prompt opts hl p hp
    rcases generateContent_call_shape cfg provider prompt opts p hp with h | h <;>
      rw [h] <;> simp [genPrimaryCall, genFallbackCall, hl] <;> decide
  · intro cfg provider prompt opts l hl h1 h2 h3 p hp
    rcases generateContent_call_shape cfg provider prompt opts p hp with h | h <;>
      rw [h] <;> simp [genPrimaryCall, genFallbackCall, hl, hbase l h1 h2 h3]

/-- Witness for the C10 theorem at an unrecognized length value. -/
theorem maxTokens_unrecognized_defaults_medium_witness :
    (("banana".toList : Str) ≠ "short".toList ∧ ("banana".toList : Str) ≠ "medium".toList ∧
      ("banana".toList : Str) ≠ "long".toList) ∧
    getMaxTokens ("banana".toList) = 600 ∧
    getMaxTokens ("banana".toList) = getMaxTokens ("medium".toList) :=
  ⟨⟨by decide, by decide, by decide⟩,
    maxTokens_unrecognized_defaults_medium.1 ("banana".toList) (by decide) (by decide)
      (by decide)⟩

end AIBlog
